import Mathlib

/-!
Shallow embedding of the MediTrack server core (src/server.js): the dashboard
aggregator (`getDashboardStats`, lines 149-225), the bulk exporter
(`GET /api/export-data`, lines 228-262), the bulk importer
(`POST /api/import-data`, lines 265-309) and the connection supervisor's
error handler (`db.on('error')`, lines 73-81).

The MySQL driver is modelled by outcome oracles: each issued query either
errors (with a message) or returns its rows.  Callback-based control flow is
embedded as explicit state passing; the promise of `getDashboardStats` is a
`settled : Option (Except String DashboardStats)` field written by the
completion callback, and the importer's per-table promise records every
`resolve`/`reject` call in order, the first call winning, exactly as in the
JavaScript promise semantics.
-/

namespace MediTrack

/-- The four tables of the medical_tracker database (src/server.js line 51). -/
inductive Table
  | medications
  | reminders
  | vitals
  | appointments
deriving DecidableEq, Repr

/-- A generic row of one of the non-medication tables, as returned by
`SELECT *`: an association list of column name to printed value. -/
abbrev GenRow : Type := List (String × String)

/-- A stored row of the medications table, columns in the order used by the
importer's INSERT statement (src/server.js line 287):
(name, dosage, frequency, time, taken). -/
structure MedRow where
  name : String
  dosage : String
  frequency : String
  time : String
  taken : Bool
deriving DecidableEq, Repr

/-- A record of the `data.medications` array of an import document
(src/server.js lines 282-283).  `taken` is optional: the source reads
`med.taken || false`. -/
structure MedRecord where
  name : String
  dosage : String
  frequency : String
  time : String
  taken : Option Bool
deriving DecidableEq, Repr

/-- The state of the four database tables. -/
structure DBState where
  medications : List MedRow
  reminders : List GenRow
  vitals : List GenRow
  appointments : List GenRow
deriving DecidableEq, Repr

/-! ## Bulk importer (`POST /api/import-data`, src/server.js lines 265-309) -/

/-- An import document.  Only the `medications` key is read by the importer
(src/server.js line 276); any other table keys present in the document are
carried in `otherKeys` (their names) and are never consulted by the code. -/
structure ImportData where
  medications : Option (List MedRecord)
  otherKeys : List String

/-- The parsed body of an import request: `const { data } = req.body` is
absent or an import document (src/server.js line 266). -/
structure ImportBody where
  data : Option ImportData

/-- A database write issued by the importer. -/
inductive DbOp
  | deleteMeds
  | insertMeds (values : List MedRow)
deriving DecidableEq, Repr

/-- Outcomes the database driver reports for the importer's two possible
queries: `none` is success, `some msg` is an error with that message. -/
structure ImportOracle where
  deleteErr : Option String
  insertErr : Option String

/-- Effect of one importer write on the database.  A successful DELETE
empties the medications table; a successful bulk INSERT appends the given
values; a failed query leaves the table unchanged. -/
def applyOp (db : DBState) (op : DbOp) (failed : Bool) : DBState :=
  if failed then db
  else
    match op with
    | .deleteMeds => { db with medications := [] }
    | .insertMeds values => { db with medications := db.medications ++ values }

/-- A call placed on the per-table import promise: `resolve()` or
`reject(err)`. -/
inductive SettleCall
  | resolved
  | rejected (err : String)
deriving DecidableEq, Repr

/-- The value row built for one import record (src/server.js line 283):
`[med.name, med.dosage, med.frequency, med.time, med.taken || false]`. -/
def medValue (med : MedRecord) : MedRow :=
  ⟨med.name, med.dosage, med.frequency, med.time, med.taken.getD false⟩

/-- The bulk-insert value list (src/server.js lines 282-284). -/
def medValues (meds : List MedRecord) : List MedRow :=
  meds.map medValue

/-- The medications import promise executor (src/server.js lines 277-295),
run to completion against the oracle.  Returns the final database state, the
trace of issued writes, and the ordered list of `resolve`/`reject` calls.

Faithful to the source, `if (err) reject(err);` has no `return`: after a
failed DELETE the executor still falls through to the length test and, for a
non-empty list, issues the INSERT. -/
def medImportRun (meds : List MedRecord) (o : ImportOracle) (db : DBState) :
    DBState × List DbOp × List SettleCall :=
  let db1 := applyOp db .deleteMeds o.deleteErr.isSome
  let calls1 : List SettleCall :=
    match o.deleteErr with
    | some e => [.rejected e]
    | none => []
  if meds.length > 0 then
    let values := medValues meds
    let db2 := applyOp db1 (.insertMeds values) o.insertErr.isSome
    let calls2 : List SettleCall :=
      match o.insertErr with
      | some e => [.rejected e]
      | none => [.resolved]
    (db2, [.deleteMeds, .insertMeds values], calls1 ++ calls2)
  else
    (db1, [.deleteMeds], calls1 ++ [.resolved])

/-- Promise settlement: the first `resolve`/`reject` call wins; later calls
are ignored. -/
def firstSettle (calls : List SettleCall) : Option SettleCall :=
  calls.head?

/-- Bodies of the importer's possible JSON responses. -/
inductive ImportResponse
  | success (message : String)
  | errObj (error : String)
deriving DecidableEq, Repr

/-- The full import route handler (src/server.js lines 265-309): HTTP status,
response body, final database state and trace of issued writes.

 * no `data` field: `400 {error: 'No data provided for import'}` before any
   database operation (lines 268-270);
 * `data.medications` absent: no promise is pushed, `Promise.all([])`
   resolves, `200 {success:true, ...}` with no database operation;
 * otherwise the medications promise runs; `Promise.all` takes its first
   settle call: resolved gives the 200 success body, rejected gives
   `500 {error: 'Failed to import data'}` (lines 301-308). -/
def importHandler (body : ImportBody) (o : ImportOracle) (db : DBState) :
    Nat × ImportResponse × DBState × List DbOp :=
  match body.data with
  | none => (400, .errObj "No data provided for import", db, [])
  | some d =>
    match d.medications with
    | none => (200, .success "Data imported successfully", db, [])
    | some meds =>
      let (db', ops, calls) := medImportRun meds o db
      match firstSettle calls with
      | some .resolved => (200, .success "Data imported successfully", db', ops)
      | _ => (500, .errObj "Failed to import data", db', ops)

/-- The per-table import operation succeeds (its promise would resolve with
no prior reject): the DELETE succeeds and, when the row list is non-empty,
the INSERT succeeds too. -/
def medOpSucceeds (meds : List MedRecord) (o : ImportOracle) : Prop :=
  o.deleteErr = none ∧ (meds = [] ∨ o.insertErr = none)

instance (meds : List MedRecord) (o : ImportOracle) :
    Decidable (medOpSucceeds meds o) := by
  unfold medOpSucceeds
  infer_instance

/-! ## Dashboard aggregator (`getDashboardStats`, src/server.js lines 149-225) -/

/-- A summary row of the medications query
`SELECT COUNT(*) as total, SUM(taken) as taken FROM medications`. -/
structure MedStats where
  total : Int
  taken : Int
deriving DecidableEq, Repr

/-- A summary row of the reminders query (total/today/upcoming counts). -/
structure RemStats where
  total : Int
  today : Int
  upcoming : Int
deriving DecidableEq, Repr

/-- A summary row of the vitals query (`SELECT COUNT(*) as total`). -/
structure VitStats where
  total : Int
deriving DecidableEq, Repr

/-- A summary row of the appointments query (total/upcoming counts). -/
structure AptStats where
  total : Int
  upcoming : Int
deriving DecidableEq, Repr

/-- What the driver reports for each of the four summary queries: an error
message or the query's row list. -/
structure StatsOracle where
  medications : Except String (List MedStats)
  reminders : Except String (List RemStats)
  vitals : Except String (List VitStats)
  appointments : Except String (List AptStats)

/-- What the medications callback stores into `results.medications`
(src/server.js lines 185-193): the rows on success, the one-element fallback
list `[{ total: 0, taken: 0 }]` on error. -/
def medResultRows (o : StatsOracle) : List MedStats :=
  match o.medications with
  | .error _ => [⟨0, 0⟩]
  | .ok rows => rows

/-- `results.reminders` (src/server.js lines 195-203); fallback
`[{ total: 0, today: 0, upcoming: 0 }]`. -/
def remResultRows (o : StatsOracle) : List RemStats :=
  match o.reminders with
  | .error _ => [⟨0, 0, 0⟩]
  | .ok rows => rows

/-- `results.vitals` (src/server.js lines 205-213); fallback
`[{ total: 0 }]`. -/
def vitResultRows (o : StatsOracle) : List VitStats :=
  match o.vitals with
  | .error _ => [⟨0⟩]
  | .ok rows => rows

/-- `results.appointments` (src/server.js lines 215-223); fallback
`[{ total: 0, upcoming: 0 }]`. -/
def aptResultRows (o : StatsOracle) : List AptStats :=
  match o.appointments with
  | .error _ => [⟨0, 0⟩]
  | .ok rows => rows

/-- The resolved value of `getDashboardStats` (src/server.js lines 174-180):
each table key holds `results.<table>[0]` and `lastUpdated` the time of
resolution.  Indexing `[0]` yields `none` on an empty list (in the source
every key is written before `resolve` runs, and summary queries return one
row, so the `none` case is never exercised there). -/
structure DashboardStats where
  medications : Option MedStats
  reminders : Option RemStats
  vitals : Option VitStats
  appointments : Option AptStats
  lastUpdated : Nat
deriving DecidableEq, Repr

/-- The in-flight state of one `getDashboardStats` call: the `results`
object (one optional slot per table; `none` = key not yet written), the
`completedQueries` counter, and the promise's settlement.  A JavaScript
promise can settle resolved (`.ok`) or rejected (`.error`); the executor's
callbacks only ever resolve, which claim C10 makes precise. -/
structure AggState where
  medications : Option (List MedStats)
  reminders : Option (List RemStats)
  vitals : Option (List VitStats)
  appointments : Option (List AptStats)
  completedQueries : Nat
  settled : Option (Except String DashboardStats)
deriving Repr

/-- The state before any query callback has fired. -/
def initAgg : AggState :=
  { medications := none, reminders := none, vitals := none,
    appointments := none, completedQueries := 0, settled := none }

/-- One query callback firing for table `t`: store the rows (or the fallback
on error) into the table's slot and increment `completedQueries`
(src/server.js lines 185-223 and 172). -/
def writeResult (o : StatsOracle) (st : AggState) (t : Table) : AggState :=
  match t with
  | .medications =>
    { st with medications := some (medResultRows o),
              completedQueries := st.completedQueries + 1 }
  | .reminders =>
    { st with reminders := some (remResultRows o),
              completedQueries := st.completedQueries + 1 }
  | .vitals =>
    { st with vitals := some (vitResultRows o),
              completedQueries := st.completedQueries + 1 }
  | .appointments =>
    { st with appointments := some (aptResultRows o),
              completedQueries := st.completedQueries + 1 }

/-- The object passed to `resolve` (src/server.js lines 174-180), built from
the `results` slots at time `now`: `results.<table>[0]` for each table. -/
def resolveOutput (st : AggState) (now : Nat) : DashboardStats :=
  { medications := (st.medications.getD []).head?,
    reminders := (st.reminders.getD []).head?,
    vitals := (st.vitals.getD []).head?,
    appointments := (st.appointments.getD []).head?,
    lastUpdated := now }

/-- A callback event: which table's query callback fires, and the clock
value at that moment (used for `new Date()` in the resolution). -/
abbrev AggEvent : Type := Table × Nat

/-- Process one callback event: write the result, then `checkCompletion`
(src/server.js lines 171-182): if `completedQueries` has reached 4, resolve
the promise (a promise settles only once, hence the `settled = none`
guard, which mirrors that later settle calls are ignored). -/
def stepAgg (o : StatsOracle) (st : AggState) (e : AggEvent) : AggState :=
  let st' := writeResult o st e.1
  if st'.completedQueries = 4 ∧ st'.settled.isNone then
    { st' with settled := some (.ok (resolveOutput st' e.2)) }
  else
    st'

/-- Run the aggregation over a sequence of callback events. -/
def runAgg (o : StatsOracle) (st : AggState) (events : List AggEvent) :
    AggState :=
  events.foldl (stepAgg o) st

/-- Body of the `/api/dashboard-stats` response. -/
inductive DashboardBody
  | stats (s : DashboardStats)
  | errObj (error : String) (details : String)
deriving DecidableEq, Repr

/-- The `/api/dashboard-stats` route handler (src/server.js lines 135-146)
applied to the settlement of the awaited promise: a resolved promise is sent
as JSON with status 200, a rejected one hits the catch branch and produces
the 500 error body. -/
def dashboardRoute (settlement : Except String DashboardStats) :
    Nat × DashboardBody :=
  match settlement with
  | .ok s => (200, .stats s)
  | .error e => (500, .errObj "Failed to fetch dashboard statistics" e)

/-- Each of the four summary queries, when it succeeds, returns exactly one
row — the SQL guarantee for the aggregate SELECTs of src/server.js lines
151-163 (`COUNT`/`SUM` with no `GROUP BY`). -/
def singleRowSummaries (o : StatsOracle) : Prop :=
  (∀ rows, o.medications = .ok rows → rows.length = 1)
  ∧ (∀ rows, o.reminders = .ok rows → rows.length = 1)
  ∧ (∀ rows, o.vitals = .ok rows → rows.length = 1)
  ∧ (∀ rows, o.appointments = .ok rows → rows.length = 1)

/-! ## Bulk exporter (`GET /api/export-data`, src/server.js lines 228-262) -/

/-- The key order of the `exportQueries` object (src/server.js lines
229-234); `Object.keys` iterates in this insertion order. -/
def exportTables : List Table :=
  [.medications, .reminders, .vitals, .appointments]

/-- The JSON key under which each table is exported. -/
def tableName : Table → String
  | .medications => "medications"
  | .reminders => "reminders"
  | .vitals => "vitals"
  | .appointments => "appointments"

/-- One entry of the export response's `data` object: the raw row list of a
successful `SELECT *`, or the error descriptor `{ error: err.message }`
(src/server.js lines 253-258). -/
inductive ExportEntry
  | rows (rs : List GenRow)
  | errObj (error : String)
deriving DecidableEq, Repr

/-- Failure injection for the four export queries: `some msg` makes the
table's `SELECT *` fail with that message, `none` lets it return the
table's rows. -/
abbrev ExportOracle : Type := Table → Option String

/-- The raw contents `SELECT * FROM <table>` returns, medications rows
printed generically (column name to value). -/
def tableRows (db : DBState) : Table → List GenRow
  | .medications =>
    db.medications.map (fun r =>
      [("name", r.name), ("dosage", r.dosage), ("frequency", r.frequency),
       ("time", r.time), ("taken", if r.taken then "1" else "0")])
  | .reminders => db.reminders
  | .vitals => db.vitals
  | .appointments => db.appointments

/-- The `exportData` object once all four callbacks have fired
(src/server.js lines 252-261), as an association list in key order: a
failing table maps to its error descriptor, a succeeding one to its rows. -/
def exportData (o : ExportOracle) (db : DBState) : List (String × ExportEntry) :=
  exportTables.map (fun t =>
    (tableName t,
      match o t with
      | some e => .errObj e
      | none => .rows (tableRows db t)))

/-- The export response body (src/server.js lines 243-247). -/
structure ExportResponse where
  success : Bool
  exportedAt : Nat
  data : List (String × ExportEntry)
deriving DecidableEq, Repr

/-- The `/api/export-data` route handler: once `completedQueries` reaches 4
it sends `{success: true, exportedAt, data}` with the default status 200,
whatever the individual query outcomes were. -/
def exportHandler (o : ExportOracle) (db : DBState) (now : Nat) :
    Nat × ExportResponse :=
  (200, { success := true, exportedAt := now, data := exportData o db })

/-! ## Connection supervisor error handler (src/server.js lines 73-81) -/

/-- What the `db.on('error')` handler does with a connection-layer error. -/
inductive DbErrorAction
  | reconnect
  | fatal
deriving DecidableEq, Repr

/-- The handler (src/server.js lines 73-81): a `PROTOCOL_CONNECTION_LOST` or
`ECONNRESET` code triggers `connectWithRetry()`; any other code is
re-thrown, which from an `error` event handler is an uncaught exception that
terminates the process. -/
def onDbError (code : String) : DbErrorAction :=
  if code = "PROTOCOL_CONNECTION_LOST" ∨ code = "ECONNRESET" then
    .reconnect
  else
    .fatal

/-! ## Theorems about the importer -/

/-- C4: an import request whose body has no `data` field is rejected
synchronously with status 400 (`{error: 'No data provided for import'}`),
with an empty write trace and the database state unchanged. -/
theorem import_no_data_rejected_without_writes
    (body : ImportBody) (o : ImportOracle) (db : DBState)
    (h : body.data = none) :
    importHandler body o db = (400, .errObj "No data provided for import", db, []) := by
  cases body
  simp_all [importHandler]

/-- Witness for C4 at a concrete body, oracle and database. -/
theorem import_no_data_rejected_without_writes_witness :
    importHandler ⟨none⟩ ⟨none, none⟩
        { medications := [⟨"Old", "1mg", "daily", "07:00", true⟩],
          reminders := [], vitals := [], appointments := [] }
      = (400, .errObj "No data provided for import",
          { medications := [⟨"Old", "1mg", "daily", "07:00", true⟩],
            reminders := [], vitals := [], appointments := [] }, []) :=
  import_no_data_rejected_without_writes ⟨none⟩ ⟨none, none⟩ _ rfl

/-- C8: an import document without a `medications` key — whatever other,
unrecognized, table keys it carries — is silently ignored: the response is
the 200 success body, the write trace is empty, and all four tables are
unchanged. -/
theorem import_unrecognized_keys_ignored
    (d : ImportData) (o : ImportOracle) (db : DBState)
    (h : d.medications = none) :
    importHandler ⟨some d⟩ o db
      = (200, .success "Data imported successfully", db, []) := by
  cases d
  simp_all [importHandler]

/-- Witness for C8: a document naming only the reminders table and an
unknown table. -/
theorem import_unrecognized_keys_ignored_witness :
    importHandler ⟨some ⟨none, ["reminders", "unknown_table"]⟩⟩ ⟨none, some "er"⟩
        { medications := [⟨"Old", "1mg", "daily", "07:00", true⟩],
          reminders := [[("id", "1")]], vitals := [], appointments := [] }
      = (200, .success "Data imported successfully",
          { medications := [⟨"Old", "1mg", "daily", "07:00", true⟩],
            reminders := [[("id", "1")]], vitals := [], appointments := [] }, []) :=
  import_unrecognized_keys_ignored ⟨none, ["reminders", "unknown_table"]⟩ _ _ rfl

/-- C5: for a request that names the medications table, the import responds
200 `{success:true}` exactly when the launched per-table operation succeeds
(the DELETE and, for a non-empty list, the INSERT), responds 500
`{error: 'Failed to import data'}` when it does not, and in every case the
other three tables are left untouched — nothing is rolled back. -/
theorem import_success_iff_all_ops_succeed
    (d : ImportData) (meds : List MedRecord) (o : ImportOracle) (db : DBState)
    (h : d.medications = some meds) :
    ((importHandler ⟨some d⟩ o db).1 = 200
        ∧ (importHandler ⟨some d⟩ o db).2.1 = .success "Data imported successfully"
      ↔ medOpSucceeds meds o)
    ∧ (¬ medOpSucceeds meds o →
        (importHandler ⟨some d⟩ o db).1 = 500
          ∧ (importHandler ⟨some d⟩ o db).2.1 = .errObj "Failed to import data")
    ∧ (importHandler ⟨some d⟩ o db).2.2.1.reminders = db.reminders
    ∧ (importHandler ⟨some d⟩ o db).2.2.1.vitals = db.vitals
    ∧ (importHandler ⟨some d⟩ o db).2.2.1.appointments = db.appointments := by
  cases d
  obtain ⟨delErr, insErr⟩ := o
  subst h
  cases delErr <;> cases insErr <;> cases meds <;>
    simp [importHandler, medImportRun, firstSettle, applyOp, medOpSucceeds]

/-- Witness for C5: a failing INSERT yields the 500 body and leaves the
other tables untouched. -/
theorem import_success_iff_all_ops_succeed_witness :
    ¬ medOpSucceeds [⟨"Aspirin", "81mg", "daily", "08:00", none⟩] ⟨none, some "er"⟩
    ∧ (importHandler
          ⟨some ⟨some [⟨"Aspirin", "81mg", "daily", "08:00", none⟩], []⟩⟩
          ⟨none, some "er"⟩
          { medications := [], reminders := [[("id", "1")]],
            vitals := [], appointments := [] }).1 = 500 :=
  ⟨by simp [medOpSucceeds],
    ((import_success_iff_all_ops_succeed _ _ _ _ rfl).2.1
      (by simp [medOpSucceeds])).1⟩

/-- C6: when the medications list is non-empty and both writes succeed, the
final medications table is exactly the input records in the order given,
each mapped positionally onto (name, dosage, frequency, time, taken) with
`taken` defaulting to `false` when absent; the write trace is the DELETE
followed by the one bulk INSERT. -/
theorem import_bulk_insert_positional
    (d : ImportData) (meds : List MedRecord) (o : ImportOracle) (db : DBState)
    (h : d.medications = some meds) (hne : meds ≠ [])
    (hdel : o.deleteErr = none) (hins : o.insertErr = none) :
    (importHandler ⟨some d⟩ o db).1 = 200
    ∧ (importHandler ⟨some d⟩ o db).2.2.1.medications
        = meds.map (fun m => ⟨m.name, m.dosage, m.frequency, m.time, m.taken.getD false⟩)
    ∧ (importHandler ⟨some d⟩ o db).2.2.2
        = [.deleteMeds, .insertMeds (medValues meds)] := by
  cases d
  obtain ⟨delErr, insErr⟩ := o
  subst h
  simp only at hdel hins
  subst hdel hins
  cases meds with
  | nil => exact absurd rfl hne
  | cons m ms =>
    simp [importHandler, medImportRun, firstSettle, applyOp, medValues, medValue]

/-- Witness for C6: importing the single Aspirin record with no `taken`
field leaves exactly one row, with `taken = false`, even starting from a
non-empty table. -/
theorem import_bulk_insert_positional_witness :
    (importHandler
        ⟨some ⟨some [⟨"Aspirin", "81mg", "daily", "08:00", none⟩], []⟩⟩
        ⟨none, none⟩
        { medications := [⟨"Old", "1mg", "daily", "07:00", true⟩],
          reminders := [], vitals := [], appointments := [] }).2.2.1.medications
      = [⟨"Aspirin", "81mg", "daily", "08:00", false⟩] := by
  have h := import_bulk_insert_positional
    ⟨some [⟨"Aspirin", "81mg", "daily", "08:00", none⟩], []⟩
    [⟨"Aspirin", "81mg", "daily", "08:00", none⟩] ⟨none, none⟩
    { medications := [⟨"Old", "1mg", "daily", "07:00", true⟩],
      reminders := [], vitals := [], appointments := [] }
    rfl (by simp) rfl rfl
  simpa using h.2.1

/-- C1 (code bug): at the concrete failing input — a table holding one old
row, an import document with one new record, a DELETE that errors while the
INSERT succeeds — the handler issues the INSERT anyway (`if (err)
reject(err);` has no `return`), so the final table holds the old row *and*
the new row (a merge, not a replace) while the response is the 500 error
body. -/
theorem import_delete_failure_still_inserts :
    importHandler
        ⟨some ⟨some [⟨"Aspirin", "81mg", "daily", "08:00", none⟩], []⟩⟩
        ⟨some "ER_LOCK_WAIT_TIMEOUT", none⟩
        { medications := [⟨"Old", "1mg", "daily", "07:00", true⟩],
          reminders := [], vitals := [], appointments := [] }
      = (500, .errObj "Failed to import data",
          { medications := [⟨"Old", "1mg", "daily", "07:00", true⟩,
                            ⟨"Aspirin", "81mg", "daily", "08:00", false⟩],
            reminders := [], vitals := [], appointments := [] },
          [.deleteMeds,
           .insertMeds [⟨"Aspirin", "81mg", "daily", "08:00", false⟩]]) := by
  rfl

/-! ## Helper lemmas about the aggregator's callback machine -/

theorem writeResult_completedQueries (o : StatsOracle) (st : AggState) (t : Table) :
    (writeResult o st t).completedQueries = st.completedQueries + 1 := by
  cases t <;> rfl

theorem writeResult_settled (o : StatsOracle) (st : AggState) (t : Table) :
    (writeResult o st t).settled = st.settled := by
  cases t <;> rfl

theorem writeResult_medications (o : StatsOracle) (st : AggState) (t : Table) :
    (writeResult o st t).medications =
      if t = .medications then some (medResultRows o) else st.medications := by
  cases t <;> rfl

theorem writeResult_reminders (o : StatsOracle) (st : AggState) (t : Table) :
    (writeResult o st t).reminders =
      if t = .reminders then some (remResultRows o) else st.reminders := by
  cases t <;> rfl

theorem writeResult_vitals (o : StatsOracle) (st : AggState) (t : Table) :
    (writeResult o st t).vitals =
      if t = .vitals then some (vitResultRows o) else st.vitals := by
  cases t <;> rfl

theorem writeResult_appointments (o : StatsOracle) (st : AggState) (t : Table) :
    (writeResult o st t).appointments =
      if t = .appointments then some (aptResultRows o) else st.appointments := by
  cases t <;> rfl

theorem stepAgg_completedQueries (o : StatsOracle) (st : AggState) (e : AggEvent) :
    (stepAgg o st e).completedQueries = st.completedQueries + 1 := by
  simp only [stepAgg]
  split
  · exact writeResult_completedQueries o st e.1
  · exact writeResult_completedQueries o st e.1

theorem stepAgg_medications (o : StatsOracle) (st : AggState) (e : AggEvent) :
    (stepAgg o st e).medications = (writeResult o st e.1).medications := by
  simp only [stepAgg]
  split <;> rfl

theorem stepAgg_reminders (o : StatsOracle) (st : AggState) (e : AggEvent) :
    (stepAgg o st e).reminders = (writeResult o st e.1).reminders := by
  simp only [stepAgg]
  split <;> rfl

theorem stepAgg_vitals (o : StatsOracle) (st : AggState) (e : AggEvent) :
    (stepAgg o st e).vitals = (writeResult o st e.1).vitals := by
  simp only [stepAgg]
  split <;> rfl

theorem stepAgg_appointments (o : StatsOracle) (st : AggState) (e : AggEvent) :
    (stepAgg o st e).appointments = (writeResult o st e.1).appointments := by
  simp only [stepAgg]
  split <;> rfl

/-- Before the fourth callback the counter has not reached 4, so
`checkCompletion` leaves the promise unsettled. -/
theorem stepAgg_settled_of_ne (o : StatsOracle) (st : AggState) (e : AggEvent)
    (h : st.completedQueries + 1 ≠ 4) :
    (stepAgg o st e).settled = st.settled := by
  simp only [stepAgg]
  split
  · rename_i hc
    rw [writeResult_completedQueries] at hc
    exact absurd hc.1 h
  · exact writeResult_settled o st e.1

/-- The fourth callback resolves the promise with the snapshot built from
the `results` slots and the clock at that moment. -/
theorem stepAgg_settled_resolve (o : StatsOracle) (st : AggState) (e : AggEvent)
    (h3 : st.completedQueries = 3) (hn : st.settled = none) :
    (stepAgg o st e).settled
      = some (.ok (resolveOutput (writeResult o st e.1) e.2)) := by
  simp only [stepAgg]
  split
  · rfl
  · rename_i hc
    refine absurd ⟨?_, ?_⟩ hc
    · rw [writeResult_completedQueries, h3]
    · rw [writeResult_settled, hn]
      rfl

/-- Every step either leaves the settlement alone or resolves; the executor
has no `reject` call, so a rejected settlement is never produced. -/
theorem stepAgg_settled_cases (o : StatsOracle) (st : AggState) (e : AggEvent) :
    (stepAgg o st e).settled = st.settled
    ∨ ∃ s, (stepAgg o st e).settled = some (.ok s) := by
  simp only [stepAgg]
  split
  · exact Or.inr ⟨_, rfl⟩
  · exact Or.inl (writeResult_settled o st e.1)

theorem runAgg_nil (o : StatsOracle) (st : AggState) : runAgg o st [] = st := rfl

theorem runAgg_cons (o : StatsOracle) (st : AggState) (e : AggEvent)
    (l : List AggEvent) :
    runAgg o st (e :: l) = runAgg o (stepAgg o st e) l := rfl

/-- The counter counts exactly the callbacks processed so far. -/
theorem runAgg_completedQueries (o : StatsOracle) (l : List AggEvent) :
    ∀ st : AggState,
      (runAgg o st l).completedQueries = st.completedQueries + l.length := by
  induction l with
  | nil => intro st; rfl
  | cons e l ih =>
    intro st
    rw [runAgg_cons, ih, stepAgg_completedQueries]
    simp
    omega

/-- While fewer than four callbacks have fired in total, the promise stays
unsettled: the aggregation cannot resolve before all four queries have
either returned or failed-and-been-substituted. -/
theorem runAgg_settled_none (o : StatsOracle) (l : List AggEvent) :
    ∀ st : AggState, st.settled = none →
      st.completedQueries + l.length < 4 → (runAgg o st l).settled = none := by
  induction l with
  | nil => intro st h _; exact h
  | cons e l ih =>
    intro st h hlen
    rw [runAgg_cons]
    refine ih _ ?_ ?_
    · rw [stepAgg_settled_of_ne o st e (by simp at hlen; omega)]
      exact h
    · rw [stepAgg_completedQueries]
      simp at hlen ⊢
      omega

/-- The medications slot after a run: written (with the success rows or the
fallback) exactly when the medications callback occurred. -/
theorem runAgg_medications (o : StatsOracle) (l : List AggEvent) :
    ∀ st : AggState,
      (runAgg o st l).medications =
        if Table.medications ∈ l.map Prod.fst then some (medResultRows o)
        else st.medications := by
  induction l with
  | nil => intro st; simp [runAgg_nil]
  | cons e l ih =>
    intro st
    rw [runAgg_cons, ih, stepAgg_medications, writeResult_medications]
    by_cases h1 : Table.medications ∈ l.map Prod.fst
    · simp [h1]
    · by_cases h2 : e.1 = Table.medications
      · simp [h1, h2]
      · simp [h1, h2, Ne.symm h2]

theorem runAgg_reminders (o : StatsOracle) (l : List AggEvent) :
    ∀ st : AggState,
      (runAgg o st l).reminders =
        if Table.reminders ∈ l.map Prod.fst then some (remResultRows o)
        else st.reminders := by
  induction l with
  | nil => intro st; simp [runAgg_nil]
  | cons e l ih =>
    intro st
    rw [runAgg_cons, ih, stepAgg_reminders, writeResult_reminders]
    by_cases h1 : Table.reminders ∈ l.map Prod.fst
    · simp [h1]
    · by_cases h2 : e.1 = Table.reminders
      · simp [h1, h2]
      · simp [h1, h2, Ne.symm h2]

theorem runAgg_vitals (o : StatsOracle) (l : List AggEvent) :
    ∀ st : AggState,
      (runAgg o st l).vitals =
        if Table.vitals ∈ l.map Prod.fst then some (vitResultRows o)
        else st.vitals := by
  induction l with
  | nil => intro st; simp [runAgg_nil]
  | cons e l ih =>
    intro st
    rw [runAgg_cons, ih, stepAgg_vitals, writeResult_vitals]
    by_cases h1 : Table.vitals ∈ l.map Prod.fst
    · simp [h1]
    · by_cases h2 : e.1 = Table.vitals
      · simp [h1, h2]
      · simp [h1, h2, Ne.symm h2]

theorem runAgg_appointments (o : StatsOracle) (l : List AggEvent) :
    ∀ st : AggState,
      (runAgg o st l).appointments =
        if Table.appointments ∈ l.map Prod.fst then some (aptResultRows o)
        else st.appointments := by
  induction l with
  | nil => intro st; simp [runAgg_nil]
  | cons e l ih =>
    intro st
    rw [runAgg_cons, ih, stepAgg_appointments, writeResult_appointments]
    by_cases h1 : Table.appointments ∈ l.map Prod.fst
    · simp [h1]
    · by_cases h2 : e.1 = Table.appointments
      · simp [h1, h2]
      · simp [h1, h2, Ne.symm h2]

/-- A settlement reached from an unsettled-or-resolved state is never a
rejection: no callback of the executor calls `reject`. -/
theorem runAgg_settled_never_rejected (o : StatsOracle) (l : List AggEvent) :
    ∀ st : AggState,
      (st.settled = none ∨ ∃ s, st.settled = some (.ok s)) →
      ((runAgg o st l).settled = none
        ∨ ∃ s, (runAgg o st l).settled = some (.ok s)) := by
  induction l with
  | nil => intro st h; exact h
  | cons e l ih =>
    intro st h
    rw [runAgg_cons]
    refine ih _ ?_
    rcases stepAgg_settled_cases o st e with hkeep | ⟨s, hres⟩
    · rw [hkeep]; exact h
    · exact Or.inr ⟨s, hres⟩

theorem medResultRows_singleton (o : StatsOracle)
    (h : ∀ rows, o.medications = .ok rows → rows.length = 1) :
    ∃ m, medResultRows o = [m] := by
  cases ho : o.medications with
  | error e => exact ⟨⟨0, 0⟩, by simp [medResultRows, ho]⟩
  | ok rows =>
    rcases List.length_eq_one.mp (h rows ho) with ⟨m, rfl⟩
    exact ⟨m, by simp [medResultRows, ho]⟩

theorem remResultRows_singleton (o : StatsOracle)
    (h : ∀ rows, o.reminders = .ok rows → rows.length = 1) :
    ∃ r, remResultRows o = [r] := by
  cases ho : o.reminders with
  | error e => exact ⟨⟨0, 0, 0⟩, by simp [remResultRows, ho]⟩
  | ok rows =>
    rcases List.length_eq_one.mp (h rows ho) with ⟨r, rfl⟩
    exact ⟨r, by simp [remResultRows, ho]⟩

theorem vitResultRows_singleton (o : StatsOracle)
    (h : ∀ rows, o.vitals = .ok rows → rows.length = 1) :
    ∃ v, vitResultRows o = [v] := by
  cases ho : o.vitals with
  | error e => exact ⟨⟨0⟩, by simp [vitResultRows, ho]⟩
  | ok rows =>
    rcases List.length_eq_one.mp (h rows ho) with ⟨v, rfl⟩
    exact ⟨v, by simp [vitResultRows, ho]⟩

theorem aptResultRows_singleton (o : StatsOracle)
    (h : ∀ rows, o.appointments = .ok rows → rows.length = 1) :
    ∃ a, aptResultRows o = [a] := by
  cases ho : o.appointments with
  | error e => exact ⟨⟨0, 0⟩, by simp [aptResultRows, ho]⟩
  | ok rows =>
    rcases List.length_eq_one.mp (h rows ho) with ⟨a, rfl⟩
    exact ⟨a, by simp [aptResultRows, ho]⟩

/-- Once the four query callbacks have each fired exactly once, in any
order, the promise is resolved with the snapshot built from the stored (or
substituted) result lists and the clock value of the completing callback. -/
theorem runAgg_complete (o : StatsOracle) (events : List AggEvent)
    (hperm : (events.map Prod.fst).Perm
      [.medications, .reminders, .vitals, .appointments]) :
    ∃ last, events.getLast? = some last ∧
      (runAgg o initAgg events).settled = some (.ok
        { medications := (medResultRows o).head?,
          reminders := (remResultRows o).head?,
          vitals := (vitResultRows o).head?,
          appointments := (aptResultRows o).head?,
          lastUpdated := last.2 }) := by
  have hlen : events.length = 4 := by
    have h := hperm.length_eq
    simpa using h
  obtain ⟨e0, e1, e2, e3, rfl⟩ : ∃ a b c d, events = [a, b, c, d] := by
    rcases events with _ | ⟨a, _ | ⟨b, _ | ⟨c, _ | ⟨d, _ | ⟨e, t⟩⟩⟩⟩⟩ <;>
      simp_all
  have h3none : (runAgg o initAgg [e0, e1, e2]).settled = none :=
    runAgg_settled_none o [e0, e1, e2] initAgg rfl (by simp [initAgg])
  have h3cnt : (runAgg o initAgg [e0, e1, e2]).completedQueries = 3 := by
    rw [runAgg_completedQueries]
    rfl
  have hsplit : runAgg o initAgg [e0, e1, e2, e3]
      = stepAgg o (runAgg o initAgg [e0, e1, e2]) e3 := rfl
  have hmem : ∀ t : Table,
      t ∈ ([e0, e1, e2] : List AggEvent).map Prod.fst ∨ e3.1 = t := by
    intro t
    have h4 : t ∈ ([e0, e1, e2, e3] : List AggEvent).map Prod.fst :=
      hperm.mem_iff.mpr (by cases t <;> simp)
    simp at h4 ⊢
    tauto
  have hmed : (writeResult o (runAgg o initAgg [e0, e1, e2]) e3.1).medications
      = some (medResultRows o) := by
    rw [writeResult_medications, runAgg_medications]
    rcases hmem .medications with hin | heq
    · by_cases h2 : e3.1 = Table.medications
      · rw [if_pos h2]
      · rw [if_neg h2, if_pos hin]
    · rw [if_pos heq]
  have hrem : (writeResult o (runAgg o initAgg [e0, e1, e2]) e3.1).reminders
      = some (remResultRows o) := by
    rw [writeResult_reminders, runAgg_reminders]
    rcases hmem .reminders with hin | heq
    · by_cases h2 : e3.1 = Table.reminders
      · rw [if_pos h2]
      · rw [if_neg h2, if_pos hin]
    · rw [if_pos heq]
  have hvit : (writeResult o (runAgg o initAgg [e0, e1, e2]) e3.1).vitals
      = some (vitResultRows o) := by
    rw [writeResult_vitals, runAgg_vitals]
    rcases hmem .vitals with hin | heq
    · by_cases h2 : e3.1 = Table.vitals
      · rw [if_pos h2]
      · rw [if_neg h2, if_pos hin]
    · rw [if_pos heq]
  have hapt : (writeResult o (runAgg o initAgg [e0, e1, e2]) e3.1).appointments
      = some (aptResultRows o) := by
    rw [writeResult_appointments, runAgg_appointments]
    rcases hmem .appointments with hin | heq
    · by_cases h2 : e3.1 = Table.appointments
      · rw [if_pos h2]
      · rw [if_neg h2, if_pos hin]
    · rw [if_pos heq]
  refine ⟨e3, rfl, ?_⟩
  rw [hsplit, stepAgg_settled_resolve o _ e3 h3cnt h3none]
  simp only [resolveOutput, hmed, hrem, hvit, hapt, Option.getD_some]

/-- C7: the aggregation resolves only once all four summary queries have
either returned or failed-and-been-substituted (every strict prefix of the
callback sequence leaves the promise unsettled), and it resolves with
`{medications, reminders, vitals, appointments, lastUpdated}` where each
table key holds the single summary row of its query — an object, not an
array — and `lastUpdated` is the clock value at completion. -/
theorem dashboard_resolution_shape (o : StatsOracle) (events : List AggEvent)
    (hperm : (events.map Prod.fst).Perm
      [.medications, .reminders, .vitals, .appointments])
    (hsingle : singleRowSummaries o) :
    (∀ pre, pre <+: events → pre ≠ events →
      (runAgg o initAgg pre).settled = none)
    ∧ ∃ m r v a last,
        medResultRows o = [m] ∧ remResultRows o = [r]
        ∧ vitResultRows o = [v] ∧ aptResultRows o = [a]
        ∧ events.getLast? = some last
        ∧ (runAgg o initAgg events).settled
            = some (.ok ⟨some m, some r, some v, some a, last.2⟩) := by
  obtain ⟨h1, h2, h3, h4⟩ := hsingle
  have hlen : events.length = 4 := by
    have h := hperm.length_eq
    simpa using h
  constructor
  · intro pre hpre hne
    refine runAgg_settled_none o pre initAgg rfl ?_
    have hle : pre.length ≤ 4 := hlen ▸ hpre.length_le
    have hlt : pre.length < 4 := by
      rcases lt_or_eq_of_le hle with h | h
      · exact h
      · exact absurd (hpre.eq_of_length (h.trans hlen.symm)) hne
    simpa [initAgg] using hlt
  · obtain ⟨m, hm⟩ := medResultRows_singleton o h1
    obtain ⟨r, hr⟩ := remResultRows_singleton o h2
    obtain ⟨v, hv⟩ := vitResultRows_singleton o h3
    obtain ⟨a, ha⟩ := aptResultRows_singleton o h4
    obtain ⟨last, hlast, hsettled⟩ := runAgg_complete o events hperm
    refine ⟨m, r, v, a, last, hm, hr, hv, ha, hlast, ?_⟩
    rw [hsettled, hm, hr, hv, ha]
    rfl

/-- Witness for C7: a concrete run — vitals, medications, appointments,
reminders callbacks at clocks 10, 20, 30, 44, the reminders query failing —
resolves exactly at the fourth callback with the stored rows, the reminders
fallback, and `lastUpdated = 44`; the one-callback prefix is unsettled. -/
theorem dashboard_resolution_shape_witness :
    (runAgg ⟨.ok [⟨2, 1⟩], .error "remfail", .ok [⟨4⟩], .ok [⟨5, 2⟩]⟩ initAgg
        [(.vitals, 10)]).settled = none
    ∧ (runAgg ⟨.ok [⟨2, 1⟩], .error "remfail", .ok [⟨4⟩], .ok [⟨5, 2⟩]⟩ initAgg
        [(.vitals, 10), (.medications, 20), (.appointments, 30), (.reminders, 44)]).settled
      = some (.ok ⟨some ⟨2, 1⟩, some ⟨0, 0, 0⟩, some ⟨4⟩, some ⟨5, 2⟩, 44⟩) := by
  have h := dashboard_resolution_shape
    ⟨.ok [⟨2, 1⟩], .error "remfail", .ok [⟨4⟩], .ok [⟨5, 2⟩]⟩
    [(.vitals, 10), (.medications, 20), (.appointments, 30), (.reminders, 44)]
    (by decide)
    (by refine ⟨?_, ?_, ?_, ?_⟩ <;> intro rows hrows <;> cases hrows <;> rfl)
  obtain ⟨hpre, m, r, v, a, last, hm, hr, hv, ha, hlast, hs⟩ := h
  have hm' : m = ⟨2, 1⟩ := by
    have hcomp : medResultRows
        ⟨.ok [⟨2, 1⟩], .error "remfail", .ok [⟨4⟩], .ok [⟨5, 2⟩]⟩ = [⟨2, 1⟩] := rfl
    simpa using hm.symm.trans hcomp
  have hr' : r = ⟨0, 0, 0⟩ := by
    have hcomp : remResultRows
        ⟨.ok [⟨2, 1⟩], .error "remfail", .ok [⟨4⟩], .ok [⟨5, 2⟩]⟩ = [⟨0, 0, 0⟩] := rfl
    simpa using hr.symm.trans hcomp
  have hv' : v = ⟨4⟩ := by
    have hcomp : vitResultRows
        ⟨.ok [⟨2, 1⟩], .error "remfail", .ok [⟨4⟩], .ok [⟨5, 2⟩]⟩ = [⟨4⟩] := rfl
    simpa using hv.symm.trans hcomp
  have ha' : a = ⟨5, 2⟩ := by
    have hcomp : aptResultRows
        ⟨.ok [⟨2, 1⟩], .error "remfail", .ok [⟨4⟩], .ok [⟨5, 2⟩]⟩ = [⟨5, 2⟩] := rfl
    simpa using ha.symm.trans hcomp
  have hlast' : last = (.reminders, 44) := by
    have hcomp : ([((.vitals : Table), 10), (.medications, 20), (.appointments, 30),
        (.reminders, 44)] : List AggEvent).getLast? = some (.reminders, 44) := rfl
    simpa using hlast.symm.trans hcomp
  subst hm' hr' hv' ha' hlast'
  exact ⟨hpre [(.vitals, 10)] ⟨_, rfl⟩ (by decide), hs⟩

/-- C2: for any complete callback sequence, whichever of the four summary
queries errored, the aggregation still resolves (so the route answers 200
with the stats body), the snapshot carries all four table keys, and every
failing table's key holds its fixed zero-valued fallback projection. -/
theorem dashboard_fallback_on_query_error (o : StatsOracle)
    (events : List AggEvent)
    (hperm : (events.map Prod.fst).Perm
      [.medications, .reminders, .vitals, .appointments])
    (hsingle : singleRowSummaries o) :
    ∃ s : DashboardStats,
      (runAgg o initAgg events).settled = some (.ok s)
      ∧ dashboardRoute (.ok s) = (200, .stats s)
      ∧ s.medications.isSome ∧ s.reminders.isSome
      ∧ s.vitals.isSome ∧ s.appointments.isSome
      ∧ (∀ e, o.medications = .error e → s.medications = some ⟨0, 0⟩)
      ∧ (∀ e, o.reminders = .error e → s.reminders = some ⟨0, 0, 0⟩)
      ∧ (∀ e, o.vitals = .error e → s.vitals = some ⟨0⟩)
      ∧ (∀ e, o.appointments = .error e → s.appointments = some ⟨0, 0⟩) := by
  obtain ⟨h1, h2, h3, h4⟩ := hsingle
  obtain ⟨m, hm⟩ := medResultRows_singleton o h1
  obtain ⟨r, hr⟩ := remResultRows_singleton o h2
  obtain ⟨v, hv⟩ := vitResultRows_singleton o h3
  obtain ⟨a, ha⟩ := aptResultRows_singleton o h4
  obtain ⟨last, _, hsettled⟩ := runAgg_complete o events hperm
  refine ⟨_, hsettled, rfl, ?_, ?_, ?_, ?_, ?_, ?_, ?_, ?_⟩
  · simp [hm]
  · simp [hr]
  · simp [hv]
  · simp [ha]
  · intro e he
    simp [medResultRows, he]
  · intro e he
    simp [remResultRows, he]
  · intro e he
    simp [vitResultRows, he]
  · intro e he
    simp [aptResultRows, he]

/-- Witness for C2: with the vitals and appointments queries failing, the
resolved snapshot holds their zero fallbacks alongside the other two tables'
rows. -/
theorem dashboard_fallback_on_query_error_witness :
    (runAgg ⟨.ok [⟨2, 1⟩], .ok [⟨7, 1, 3⟩], .error "vitfail", .error "aptfail"⟩
        initAgg
        [(.medications, 1), (.reminders, 2), (.vitals, 3), (.appointments, 9)]).settled
      = some (.ok ⟨some ⟨2, 1⟩, some ⟨7, 1, 3⟩, some ⟨0⟩, some ⟨0, 0⟩, 9⟩) := by
  obtain ⟨s, hsettled, _, _, _, _, _, _, _, hvit, hapt⟩ :=
    dashboard_fallback_on_query_error
      ⟨.ok [⟨2, 1⟩], .ok [⟨7, 1, 3⟩], .error "vitfail", .error "aptfail"⟩
      [(.medications, 1), (.reminders, 2), (.vitals, 3), (.appointments, 9)]
      (by decide)
      (by refine ⟨?_, ?_, ?_, ?_⟩ <;> intro rows hrows <;> cases hrows <;> rfl)
  have hconc : (runAgg
      ⟨.ok [⟨2, 1⟩], .ok [⟨7, 1, 3⟩], .error "vitfail", .error "aptfail"⟩ initAgg
      [(.medications, 1), (.reminders, 2), (.vitals, 3), (.appointments, 9)]).settled
      = some (.ok ⟨some ⟨2, 1⟩, some ⟨7, 1, 3⟩, some ⟨0⟩, some ⟨0, 0⟩, 9⟩) := rfl
  exact hconc

/-- C10: the promise of `getDashboardStats` never rejects — whatever the
per-query outcomes and callback order, any settlement it reaches is a
resolution, so the route's 500 catch branch is unreachable once the promise
has settled. -/
theorem dashboard_promise_never_rejects (o : StatsOracle)
    (events : List AggEvent) (res : Except String DashboardStats)
    (hres : (runAgg o initAgg events).settled = some res) :
    ∃ s, res = .ok s ∧ dashboardRoute res = (200, .stats s) := by
  rcases runAgg_settled_never_rejected o events initAgg (Or.inl rfl) with
    hnone | ⟨s, hok⟩
  · rw [hres] at hnone
    cases hnone
  · rw [hres] at hok
    have : res = .ok s := by injection hok
    exact ⟨s, this, by rw [this]; rfl⟩

/-- Witness for C10: a run where every query fails still settles with a
resolution and a 200 response. -/
theorem dashboard_promise_never_rejects_witness :
    dashboardRoute
        (.ok (⟨some ⟨0, 0⟩, some ⟨0, 0, 0⟩, some ⟨0⟩, some ⟨0, 0⟩, 8⟩ : DashboardStats))
      = (200, .stats ⟨some ⟨0, 0⟩, some ⟨0, 0, 0⟩, some ⟨0⟩, some ⟨0, 0⟩, 8⟩) := by
  obtain ⟨s, hs, hroute⟩ := dashboard_promise_never_rejects
    ⟨.error "a", .error "b", .error "c", .error "d"⟩
    [(.medications, 1), (.reminders, 2), (.vitals, 3), (.appointments, 8)]
    (.ok ⟨some ⟨0, 0⟩, some ⟨0, 0, 0⟩, some ⟨0⟩, some ⟨0, 0⟩, 8⟩)
    rfl
  have hcs : (⟨some ⟨0, 0⟩, some ⟨0, 0, 0⟩, some ⟨0⟩, some ⟨0, 0⟩, 8⟩ : DashboardStats) = s := by
    simpa using hs
  subst hcs
  exact hroute

/-! ## Theorems about the exporter -/

/-- C3: every export response has status 200 with `success: true`, its
`data` object has exactly the four table keys in query order regardless of
individual query outcomes, a failing table maps to the error descriptor
`{error: <message>}` (never a row list), and a succeeding table maps to its
raw row list. -/
theorem export_data_shape
    (o : ExportOracle) (db : DBState) (now : Nat) :
    (exportHandler o db now).1 = 200
    ∧ (exportHandler o db now).2.success = true
    ∧ ((exportHandler o db now).2.data.map Prod.fst)
        = ["medications", "reminders", "vitals", "appointments"]
    ∧ (∀ t e, o t = some e →
        ((exportHandler o db now).2.data.lookup (tableName t))
          = some (.errObj e))
    ∧ (∀ t, o t = none →
        ((exportHandler o db now).2.data.lookup (tableName t))
          = some (.rows (tableRows db t))) := by
  refine ⟨rfl, rfl, by simp [exportHandler, exportData, exportTables, tableName], ?_, ?_⟩
  · intro t e h
    cases t <;> simp only [exportHandler, exportData, exportTables, tableName,
      List.map, h] <;> rfl
  · intro t h
    cases t <;> simp only [exportHandler, exportData, exportTables, tableName,
      List.map, h] <;> rfl

/-- Witness for C3: with only the vitals query failing, the vitals entry is
the error descriptor and the medications entry is the raw row list. -/
theorem export_data_shape_witness :
    ((exportHandler
        (fun t => if t = Table.vitals then some "boom" else none)
        { medications := [⟨"Old", "1mg", "daily", "07:00", true⟩],
          reminders := [], vitals := [], appointments := [] } 7).2.data.lookup "vitals")
      = some (.errObj "boom")
    ∧ ((exportHandler
        (fun t => if t = Table.vitals then some "boom" else none)
        { medications := [⟨"Old", "1mg", "daily", "07:00", true⟩],
          reminders := [], vitals := [], appointments := [] } 7).2.data.lookup "medications")
      = some (.rows [[("name", "Old"), ("dosage", "1mg"), ("frequency", "daily"),
                      ("time", "07:00"), ("taken", "1")]]) := by
  have h := export_data_shape
    (fun t => if t = Table.vitals then some "boom" else none)
    { medications := [⟨"Old", "1mg", "daily", "07:00", true⟩],
      reminders := [], vitals := [], appointments := [] } 7
  exact ⟨h.2.2.2.1 Table.vitals "boom" rfl,
    by simpa [tableRows] using h.2.2.2.2 Table.medications rfl⟩

/-! ## Theorems about the connection supervisor -/

/-- C9: the `db.on('error')` handler retries exactly on the two recognized
lost-connection codes — it reconnects if and only if the code is
`PROTOCOL_CONNECTION_LOST` or `ECONNRESET`, and treats every other code as
fatal. -/
theorem db_error_reconnect_iff_recognized (code : String) :
    (onDbError code = .reconnect
      ↔ code = "PROTOCOL_CONNECTION_LOST" ∨ code = "ECONNRESET")
    ∧ (onDbError code = .fatal
      ↔ ¬(code = "PROTOCOL_CONNECTION_LOST" ∨ code = "ECONNRESET")) := by
  by_cases h : code = "PROTOCOL_CONNECTION_LOST" ∨ code = "ECONNRESET" <;>
    simp [onDbError, h]

/-- Witness for C9: a reset code reconnects, an unrecognized SQL error code
is fatal. -/
theorem db_error_reconnect_iff_recognized_witness :
    onDbError "ECONNRESET" = .reconnect
    ∧ onDbError "ER_PARSE_ERROR" = .fatal :=
  ⟨(db_error_reconnect_iff_recognized "ECONNRESET").1.mpr (Or.inr rfl),
   (db_error_reconnect_iff_recognized "ER_PARSE_ERROR").2.mpr (by simp)⟩

end MediTrack
